import Mathlib

/-!
# Verification of `runModel` in `app/src/main/cpp/native-lib.cpp`

This file gives a shallow embedding of the native inference pipeline of the
mobile-assignment repository and proves/refutes the specification's claims
about it.

The llama.cpp engine (model loading, context creation, tokenization, forward
passes, greedy sampling, detokenization, EOG classification) is an external
dependency of the pipeline.  It is modelled by an `Engine` oracle: a record of
the observable answers the engine may give on each call the pipeline makes.
The pipeline itself (`formatPrompt`, the generation loop and `runModel`) is
translated statement by statement from the source.

Wall-clock readings (`std::chrono` durations, in milliseconds) are likewise
oracle inputs: `ttftSampleMs`, `prefillMs` and `genMs` are the values the
three `duration_cast<milliseconds>(...).count()` expressions evaluate to.
They are natural numbers because a chrono duration between `now()` readings
is non-negative.
-/

set_option autoImplicit false

namespace NativeLib

/--
Oracle for the llama.cpp capability surface consumed by `runModel`, plus the
three wall-clock readings.  Each field records what the corresponding engine
call returns:

* `loadModelOk path`  — whether `llama_model_load_from_file(path, ...)` is non-null;
* `ctxOk`             — whether `llama_init_from_model(model, ctx_params)` is non-null;
* `tokenize s`        — the `int` returned by `llama_tokenize` on the formatted prompt `s`;
* `prefillOk`         — whether `llama_decode(ctx, batch)` on the prompt batch returns 0;
* `sample k`          — the token id `llama_sampler_sample` yields at the k-th loop iteration;
* `isEog tok`         — the result of `llama_vocab_is_eog(vocab, tok)`;
* `tokenToPiece tok`  — the text fragment `llama_token_to_piece` writes for `tok`;
                        the empty string models a return value `n <= 0`
                        (no renderable text);
* `stepDecodeOk k`    — whether `llama_decode` on the k-th single-token batch returns 0;
* `ttftSampleMs`      — the elapsed-ms reading taken when the first token is sampled;
* `prefillMs`         — the measured prefill duration in ms;
* `genMs`             — the measured decode-phase duration in ms.
-/
structure Engine where
  loadModelOk : String → Bool
  ctxOk : Bool
  tokenize : String → Int
  prefillOk : Bool
  sample : Nat → Int
  isEog : Int → Bool
  tokenToPiece : Int → String
  stepDecodeOk : Nat → Bool
  ttftSampleMs : Nat
  prefillMs : Nat
  genMs : Nat

/--
The chat-template switch of `runModel` (native-lib.cpp lines 62-84):
`case 1` Gemma, `case 2` Llama 3, `case 3` Phi, `default` ChatML.
The raw prompt is concatenated verbatim between the fixed literals.
-/
def formatPrompt (prompt : String) (template_type : Int) : String :=
  if template_type = 1 then
    "<start_of_turn>user\n" ++ prompt ++ "<end_of_turn>\n<start_of_turn>model\n"
  else if template_type = 2 then
    "<|begin_of_text|><|start_header_id|>user<|end_header_id|>\n\n" ++ prompt ++
      "<|eot_id|><|start_header_id|>assistant<|end_header_id|>\n\n"
  else if template_type = 3 then
    "<|user|>\n" ++ prompt ++ "<|end|>\n<|assistant|>\n"
  else
    "<|im_start|>user\n" ++ prompt ++ "<|im_end|>\n<|im_start|>assistant\n"

/-- Whether a list of characters contains the newline character. -/
def hasNl : List Char → Bool
  | [] => false
  | c :: cs => c == '\n' || hasNl cs

/--
Embedding of `output.find('\n') != std::string::npos` (line 213): the
accumulated output contains a `'\n'` character.
-/
def containsNewline (s : String) : Bool :=
  hasNl s.data

/--
The mutable state of the generation loop (lines 178-229):

* `n_pos`       — the cursor `int n_pos`, incremented by `batch.n_tokens` after
                  each successful single-token decode;
* `batchTokens` — `batch.n_tokens`: the prompt length for the prefill batch,
                  then 1 once `llama_batch_get_one` replaces it;
* `generated`   — `generated_tokens`;
* `output`      — `std::string output`;
* `firstSeen`   — `first_token_seen`;
* `ttft`        — `ttft_ms` (sentinel `-1` until the first token is sampled);
* `iters`       — ghost counter of loop-body entries, used only to state the
                  iteration bound; it shadows no source variable.
-/
structure GenState where
  n_pos : Nat
  batchTokens : Nat
  generated : Nat
  output : String
  firstSeen : Bool
  ttft : Int
  iters : Nat
deriving Repr, DecidableEq

/-- How the generation loop ended. `fuelOut` is an artifact of the fuelled
embedding; the termination theorem shows it never occurs at the fuel
`runModel` uses. -/
inductive StopReason
  | eog
  | newline
  | decodeError
  | budget
  | fuelOut
deriving Repr, DecidableEq

/-- Result of one loop-body execution: either a break with a reason, or the
state passed to the next iteration. -/
inductive StepRes
  | stop (s : GenState) (r : StopReason)
  | next (s : GenState)
deriving Repr, DecidableEq

/--
One iteration of the `while` body (lines 186-229), in source order:

1. `llama_token token = llama_sampler_sample(sampler, ctx, -1);`
2. `if (llama_vocab_is_eog(vocab, token)) break;`
3. first-token bookkeeping: set `ttft_ms` and `first_token_seen`;
4. `llama_token_to_piece`; if the piece length is positive, append it and
   break when the accumulated output now contains `'\n'`;
5. `generated_tokens++;`
6. `batch = llama_batch_get_one(&token, 1);`
7. `if (llama_decode(ctx, batch) != 0) break;`
8. `n_pos += batch.n_tokens;`
-/
def genStep (e : Engine) (k : Nat) (s : GenState) : StepRes :=
  let s0 : GenState := { s with iters := s.iters + 1 }
  let token := e.sample k
  if e.isEog token = true then
    StepRes.stop s0 StopReason.eog
  else
    let ttft' : Int := if s0.firstSeen = true then s0.ttft else (e.ttftSampleMs : Int)
    let frag := e.tokenToPiece token
    let out' := if 0 < frag.length then s0.output ++ frag else s0.output
    if 0 < frag.length ∧ containsNewline out' = true then
      StepRes.stop { s0 with firstSeen := true, ttft := ttft', output := out' }
        StopReason.newline
    else
      let s1 : GenState :=
        { s0 with firstSeen := true, ttft := ttft', output := out',
                  generated := s0.generated + 1, batchTokens := 1 }
      if e.stepDecodeOk k = true then
        StepRes.next { s1 with n_pos := s1.n_pos + 1 }
      else
        StepRes.stop s1 StopReason.decodeError

/--
The generation `while` loop (line 186):
`while (n_pos + batch.n_tokens < n_prompt + n_predict)` with
`n_predict = max_tokens = 32`.  `fuel` bounds the recursion depth; `k` is the
iteration index fed to the per-iteration oracles.
-/
def genLoopAux (e : Engine) (nPrompt : Nat) :
    Nat → Nat → GenState → GenState × StopReason
  | 0, _, s =>
    if s.n_pos + s.batchTokens < nPrompt + 32 then (s, StopReason.fuelOut)
    else (s, StopReason.budget)
  | fuel + 1, k, s =>
    if s.n_pos + s.batchTokens < nPrompt + 32 then
      match genStep e k s with
      | StepRes.stop s' r => (s', r)
      | StepRes.next s' => genLoopAux e nPrompt fuel (k + 1) s'
    else (s, StopReason.budget)

/-- Loop state on entry (lines 178-182): `n_pos = 0`, the batch still holds
the `n_prompt` prompt tokens, nothing generated, empty output, sentinels. -/
def initState (nPrompt : Nat) : GenState :=
  { n_pos := 0, batchTokens := nPrompt, generated := 0, output := "",
    firstSeen := false, ttft := -1, iters := 0 }

/-- The whole generation loop, with enough fuel for every reachable iteration
(the termination theorem proves `fuelOut` is never returned). -/
def genLoop (e : Engine) (nPrompt : Nat) : GenState × StopReason :=
  genLoopAux e nPrompt (nPrompt + 32) 0 (initState nPrompt)

/--
Instrumentation of resource lifecycles: which of the three engine resources
were acquired on the executed path, and which of the corresponding free calls
(`llama_sampler_free`, `llama_free`, `llama_free_model`, lines 252-255) ran
before the function returned.
-/
structure Resources where
  modelAcquired : Bool
  modelReleased : Bool
  ctxAcquired : Bool
  ctxReleased : Bool
  samplerAcquired : Bool
  samplerReleased : Bool
deriving Repr, DecidableEq

/-- The four metric variables of `runModel` at result-assembly time
(lines 50-53, 260-265). -/
structure Metrics where
  ttft_ms : Int
  itps : Int
  otps : Int
  oet_ms : Int
deriving Repr, DecidableEq

/-- Observable outcome of `runModel`: the returned string, the resource
instrumentation, and the metric variables (`none` on the early-return
paths, which never reach result assembly). -/
structure RunOut where
  result : String
  resources : Resources
  metrics : Option Metrics
deriving Repr, DecidableEq

/--
The metric variables of `runModel` at result-assembly time on the success
path (lines 164-241): `itps = n_prompt * 1000 / prefill_ms` guarded by
`prefill_ms > 0` (line 170), `ttft_ms` as left by the loop,
`otps = generated_tokens * 1000 / gen_ms` guarded by `gen_ms > 0`
(line 237), and `oet_ms = gen_ms` unguarded (line 241).
-/
def successMetrics (e : Engine) (prompt : String) (template_type : Int) : Metrics :=
  let n_prompt := (e.tokenize (formatPrompt prompt template_type)).toNat
  let st := (genLoop e n_prompt).1
  { ttft_ms := st.ttft,
    itps := if 0 < e.prefillMs then ((n_prompt * 1000 / e.prefillMs : Nat) : Int) else -1,
    otps := if 0 < e.genMs then ((st.generated * 1000 / e.genMs : Nat) : Int) else -1,
    oet_ms := (e.genMs : Int) }

/--
The tail of `runModel` once all four fallible stages succeeded
(lines 164-267): compute the metrics, run the generation loop, free
everything, and assemble
`"TTFT_MS=...;ITPS=...;OTPS=...;OET_MS=...|" + output`.
-/
def successOut (e : Engine) (prompt : String) (template_type : Int) : RunOut :=
  { result := "TTFT_MS=" ++ toString (successMetrics e prompt template_type).ttft_ms ++
      ";ITPS=" ++ toString (successMetrics e prompt template_type).itps ++
      ";OTPS=" ++ toString (successMetrics e prompt template_type).otps ++
      ";OET_MS=" ++ toString (successMetrics e prompt template_type).oet_ms ++
      "|" ++ (genLoop e (e.tokenize (formatPrompt prompt template_type)).toNat).1.output,
    resources := { modelAcquired := true, modelReleased := true, ctxAcquired := true,
                   ctxReleased := true, samplerAcquired := true, samplerReleased := true },
    metrics := some (successMetrics e prompt template_type) }

/--
`runModel` (native-lib.cpp lines 42-268).  The four early returns mirror the
source checks in order: model load (line 95), context creation (line 109),
tokenization `n_prompt <= 0` (line 132), prompt prefill (line 158).  Each
early return yields the empty string, records which resources were acquired
on that path and that no free call ran, and never reaches result assembly.
-/
def runModel (e : Engine) (prompt model_path : String) (template_type : Int) : RunOut :=
  let formatted_prompt := formatPrompt prompt template_type
  if e.loadModelOk model_path = false then
    { result := "",
      resources := { modelAcquired := false, modelReleased := false, ctxAcquired := false,
                     ctxReleased := false, samplerAcquired := false, samplerReleased := false },
      metrics := none }
  else if e.ctxOk = false then
    { result := "",
      resources := { modelAcquired := true, modelReleased := false, ctxAcquired := false,
                     ctxReleased := false, samplerAcquired := false, samplerReleased := false },
      metrics := none }
  else if e.tokenize formatted_prompt ≤ 0 then
    { result := "",
      resources := { modelAcquired := true, modelReleased := false, ctxAcquired := true,
                     ctxReleased := false, samplerAcquired := false, samplerReleased := false },
      metrics := none }
  else if e.prefillOk = false then
    { result := "",
      resources := { modelAcquired := true, modelReleased := false, ctxAcquired := true,
                     ctxReleased := false, samplerAcquired := false, samplerReleased := false },
      metrics := none }
  else
    successOut e prompt template_type

/-- The disjunction of the four fatal early-return conditions of `runModel`. -/
def fatalPath (e : Engine) (prompt model_path : String) (template_type : Int) : Prop :=
  e.loadModelOk model_path = false ∨ e.ctxOk = false ∨
    e.tokenize (formatPrompt prompt template_type) ≤ 0 ∨ e.prefillOk = false

instance (e : Engine) (p mp : String) (t : Int) : Decidable (fatalPath e p mp t) := by
  unfold fatalPath
  infer_instance

/-! ## Basic lemmas about the loop body -/

theorem hasNl_append (l m : List Char) : hasNl (l ++ m) = (hasNl l || hasNl m) := by
  induction l with
  | nil => simp [hasNl]
  | cons c cs ih => simp [hasNl, ih, Bool.or_assoc]

theorem containsNewline_append (a b : String) :
    containsNewline (a ++ b) = (containsNewline a || containsNewline b) := by
  simp [containsNewline, String.data_append, hasNl_append]

theorem genStep_next_fields {e : Engine} {k : Nat} {s s' : GenState}
    (h : genStep e k s = StepRes.next s') :
    s'.n_pos = s.n_pos + 1 ∧ s'.batchTokens = 1 ∧ s'.iters = s.iters + 1 := by
  simp only [genStep] at h
  split_ifs at h <;> cases h <;> exact ⟨rfl, rfl, rfl⟩

theorem genStep_stop_facts {e : Engine} {k : Nat} {s s' : GenState} {r : StopReason}
    (h : genStep e k s = StepRes.stop s' r) :
    s'.iters = s.iters + 1 ∧ r ≠ StopReason.fuelOut ∧ r ≠ StopReason.budget := by
  simp only [genStep] at h
  split_ifs at h <;> cases h <;> exact ⟨rfl, by decide, by decide⟩

/-- Loop-state invariant tying `first_token_seen` to `ttft_ms` and
`generated_tokens`: before the first sampled token `ttft` holds the sentinel
and nothing was counted; afterwards `ttft` holds the measured reading. -/
def stInv (e : Engine) (s : GenState) : Prop :=
  (s.firstSeen = false → s.ttft = -1 ∧ s.generated = 0) ∧
  (s.firstSeen = true → s.ttft = (e.ttftSampleMs : Int))

theorem genStep_stInv_next {e : Engine} {k : Nat} {s s' : GenState}
    (hs : stInv e s) (h : genStep e k s = StepRes.next s') : stInv e s' := by
  simp only [genStep] at h
  split_ifs at h <;> cases h <;>
    first
      | exact hs
      | (refine ⟨nofun, fun _ => ?_⟩
         first
           | rfl
           | exact hs.2 (by assumption))

theorem genStep_stInv_stop {e : Engine} {k : Nat} {s s' : GenState} {r : StopReason}
    (hs : stInv e s) (h : genStep e k s = StepRes.stop s' r) : stInv e s' := by
  simp only [genStep] at h
  split_ifs at h <;> cases h <;>
    first
      | exact hs
      | (refine ⟨nofun, fun _ => ?_⟩
         first
           | rfl
           | exact hs.2 (by assumption))

theorem genStep_newline_next {e : Engine} {k : Nat} {s s' : GenState}
    (h0 : containsNewline s.output = false)
    (h : genStep e k s = StepRes.next s') : containsNewline s'.output = false := by
  simp only [genStep] at h
  by_cases c1 : e.isEog (e.sample k) = true
  · rw [if_pos c1] at h; cases h
  · rw [if_neg c1] at h
    by_cases c2 : 0 < (e.tokenToPiece (e.sample k)).length
    · rw [if_pos c2] at h
      by_cases c3 : containsNewline (s.output ++ e.tokenToPiece (e.sample k)) = true
      · rw [if_pos (show _ ∧ _ from ⟨c2, c3⟩)] at h; cases h
      · rw [if_neg (fun hc => c3 hc.2)] at h
        by_cases c4 : e.stepDecodeOk k = true
        · rw [if_pos c4] at h; cases h; simpa using c3
        · rw [if_neg c4] at h; cases h
    · rw [if_neg c2, if_neg (fun hc => c2 hc.1)] at h
      by_cases c4 : e.stepDecodeOk k = true
      · rw [if_pos c4] at h; cases h; exact h0
      · rw [if_neg c4] at h; cases h

theorem genStep_newline_stop {e : Engine} {k : Nat} {s s' : GenState} {r : StopReason}
    (h0 : containsNewline s.output = false)
    (h : genStep e k s = StepRes.stop s' r)
    (h1 : containsNewline s'.output = true) :
    r = StopReason.newline ∧
      ∃ frag, s'.output = s.output ++ frag ∧ containsNewline frag = true := by
  simp only [genStep] at h
  by_cases c1 : e.isEog (e.sample k) = true
  · rw [if_pos c1] at h; cases h
    exact absurd (h1 : containsNewline s.output = true) (by simp [h0])
  · rw [if_neg c1] at h
    by_cases c2 : 0 < (e.tokenToPiece (e.sample k)).length
    · rw [if_pos c2] at h
      by_cases c3 : containsNewline (s.output ++ e.tokenToPiece (e.sample k)) = true
      · rw [if_pos (show _ ∧ _ from ⟨c2, c3⟩)] at h; cases h
        refine ⟨rfl, e.tokenToPiece (e.sample k), rfl, ?_⟩
        rw [containsNewline_append, h0, Bool.false_or] at c3
        exact c3
      · rw [if_neg (fun hc => c3 hc.2)] at h
        by_cases c4 : e.stepDecodeOk k = true
        · rw [if_pos c4] at h; cases h
        · rw [if_neg c4] at h; cases h
          exact absurd (h1 : containsNewline (s.output ++ e.tokenToPiece (e.sample k)) = true) c3
    · rw [if_neg c2, if_neg (fun hc => c2 hc.1)] at h
      by_cases c4 : e.stepDecodeOk k = true
      · rw [if_pos c4] at h; cases h
      · rw [if_neg c4] at h; cases h
        exact absurd (h1 : containsNewline s.output = true) (by simp [h0])

/-! ## Loop-level lemmas (induction on fuel) -/

theorem genLoopAux_stInv (e : Engine) (nPrompt : Nat) :
    ∀ (fuel k : Nat) (s : GenState), stInv e s →
      stInv e (genLoopAux e nPrompt fuel k s).1 := by
  intro fuel
  induction fuel with
  | zero =>
    intro k s hs
    simp only [genLoopAux]
    split <;> exact hs
  | succ f ih =>
    intro k s hs
    simp only [genLoopAux]
    split
    · cases hgs : genStep e k s with
      | stop s' r => exact genStep_stInv_stop hs hgs
      | next s' => exact ih (k + 1) s' (genStep_stInv_next hs hgs)
    · exact hs

theorem genLoopAux_newline (e : Engine) (nPrompt : Nat) :
    ∀ (fuel k : Nat) (s : GenState), containsNewline s.output = false →
      containsNewline (genLoopAux e nPrompt fuel k s).1.output = true →
      (genLoopAux e nPrompt fuel k s).2 = StopReason.newline ∧
        ∃ pre frag, (genLoopAux e nPrompt fuel k s).1.output = pre ++ frag ∧
          containsNewline pre = false ∧ containsNewline frag = true := by
  intro fuel
  induction fuel with
  | zero =>
    intro k s h0 h1
    simp only [genLoopAux] at h1 ⊢
    by_cases hg : s.n_pos + s.batchTokens < nPrompt + 32
    · rw [if_pos hg] at h1
      exact absurd (h1 : containsNewline s.output = true) (by simp [h0])
    · rw [if_neg hg] at h1
      exact absurd (h1 : containsNewline s.output = true) (by simp [h0])
  | succ f ih =>
    intro k s h0 h1
    simp only [genLoopAux] at h1 ⊢
    by_cases hg : s.n_pos + s.batchTokens < nPrompt + 32
    · rw [if_pos hg] at h1 ⊢
      cases hgs : genStep e k s with
      | stop s' r =>
        rw [hgs] at h1
        obtain ⟨hr, frag, hout, hfrag⟩ :=
          genStep_newline_stop h0 hgs (h1 : containsNewline s'.output = true)
        exact ⟨hr, s.output, frag, hout, h0, hfrag⟩
      | next s' =>
        rw [hgs] at h1
        exact ih (k + 1) s' (genStep_newline_next h0 hgs)
          (h1 : containsNewline (genLoopAux e nPrompt f (k + 1) s').1.output = true)
    · rw [if_neg hg] at h1
      exact absurd (h1 : containsNewline s.output = true) (by simp [h0])

theorem genLoopAux_bound (e : Engine) (nPrompt : Nat) :
    ∀ (fuel k : Nat) (s : GenState), s.batchTokens = 1 →
      s.n_pos ≤ nPrompt + 31 → nPrompt + 31 ≤ s.n_pos + fuel →
      (genLoopAux e nPrompt fuel k s).2 ≠ StopReason.fuelOut ∧
        (genLoopAux e nPrompt fuel k s).1.iters + s.n_pos ≤ s.iters + nPrompt + 31 := by
  intro fuel
  induction fuel with
  | zero =>
    intro k s hb hle hfu
    simp only [genLoopAux]
    by_cases hg : s.n_pos + s.batchTokens < nPrompt + 32
    · exact absurd hg (by rw [hb]; omega)
    · rw [if_neg hg]
      refine ⟨by simp, ?_⟩
      show s.iters + s.n_pos ≤ s.iters + nPrompt + 31
      omega
  | succ f ih =>
    intro k s hb hle hfu
    simp only [genLoopAux]
    by_cases hg : s.n_pos + s.batchTokens < nPrompt + 32
    · rw [if_pos hg]
      have hg1 : s.n_pos + 1 < nPrompt + 32 := by rw [hb] at hg; exact hg
      cases hgs : genStep e k s with
      | stop s' r =>
        obtain ⟨hi, hrf, -⟩ := genStep_stop_facts hgs
        refine ⟨hrf, ?_⟩
        show s'.iters + s.n_pos ≤ s.iters + nPrompt + 31
        omega
      | next s' =>
        obtain ⟨hnp, hbt, hit⟩ := genStep_next_fields hgs
        have hrec := ih (k + 1) s' hbt (by omega) (by omega)
        refine ⟨hrec.1, ?_⟩
        show (genLoopAux e nPrompt f (k + 1) s').1.iters + s.n_pos ≤ s.iters + nPrompt + 31
        omega
    · rw [if_neg hg]
      refine ⟨by simp, ?_⟩
      show s.iters + s.n_pos ≤ s.iters + nPrompt + 31
      omega

theorem stInv_initState (e : Engine) (nPrompt : Nat) : stInv e (initState nPrompt) :=
  ⟨fun _ => ⟨rfl, rfl⟩, nofun⟩

theorem genLoop_stInv (e : Engine) (nPrompt : Nat) : stInv e (genLoop e nPrompt).1 :=
  genLoopAux_stInv e nPrompt _ _ _ (stInv_initState e nPrompt)

theorem genLoop_newline (e : Engine) (nPrompt : Nat)
    (h1 : containsNewline (genLoop e nPrompt).1.output = true) :
    (genLoop e nPrompt).2 = StopReason.newline ∧
      ∃ pre frag, (genLoop e nPrompt).1.output = pre ++ frag ∧
        containsNewline pre = false ∧ containsNewline frag = true :=
  genLoopAux_newline e nPrompt _ _ _ rfl h1

/-- Unfolding of the first loop iteration: the guard always holds on entry
because `n_pos = 0` and the batch holds the `nPrompt` prompt tokens. -/
theorem genLoop_eq (e : Engine) (nPrompt : Nat) :
    genLoop e nPrompt =
      match genStep e 0 (initState nPrompt) with
      | StepRes.stop s' r => (s', r)
      | StepRes.next s' => genLoopAux e nPrompt (nPrompt + 31) 1 s' := by
  have hg : (initState nPrompt).n_pos + (initState nPrompt).batchTokens < nPrompt + 32 := by
    simp only [initState]
    omega
  show genLoopAux e nPrompt (nPrompt + 31 + 1) 0 (initState nPrompt) = _
  rw [genLoopAux, if_pos hg]

/-- If the very first sampled token is an end-of-generation token, the loop
stops at once with nothing generated, empty output and the ttft sentinel. -/
theorem genLoop_eog_first (e : Engine) (nPrompt : Nat)
    (h : e.isEog (e.sample 0) = true) :
    (genLoop e nPrompt).1.output = "" ∧ (genLoop e nPrompt).2 = StopReason.eog ∧
      (genLoop e nPrompt).1.generated = 0 ∧ (genLoop e nPrompt).1.ttft = -1 := by
  rw [genLoop_eq]
  have hstep : genStep e 0 (initState nPrompt) =
      StepRes.stop { initState nPrompt with iters := 1 } StopReason.eog := by
    simp [genStep, h, initState]
  rw [hstep]
  exact ⟨rfl, rfl, rfl, rfl⟩

/-! ## Run-level lemmas -/

theorem runModel_success (e : Engine) (p mp : String) (t : Int)
    (h1 : e.loadModelOk mp = true) (h2 : e.ctxOk = true)
    (h3 : 0 < e.tokenize (formatPrompt p t)) (h4 : e.prefillOk = true) :
    runModel e p mp t = successOut e p t := by
  have h3' : ¬ e.tokenize (formatPrompt p t) ≤ 0 := not_le.mpr h3
  simp [runModel, h1, h2, h3', h4]

theorem runModel_fatal (e : Engine) (p mp : String) (t : Int)
    (h : fatalPath e p mp t) :
    (runModel e p mp t).result = "" ∧ (runModel e p mp t).metrics = none := by
  simp only [runModel]
  split_ifs with a b c d
  · exact ⟨rfl, rfl⟩
  · exact ⟨rfl, rfl⟩
  · exact ⟨rfl, rfl⟩
  · exact ⟨rfl, rfl⟩
  · rcases h with h | h | h | h
    · exact absurd h a
    · exact absurd h b
    · exact absurd h c
    · exact absurd h d

theorem runModel_of_not_fatal (e : Engine) (p mp : String) (t : Int)
    (h : ¬ fatalPath e p mp t) : runModel e p mp t = successOut e p t := by
  unfold fatalPath at h
  push_neg at h
  obtain ⟨h1, h2, h3, h4⟩ := h
  exact runModel_success e p mp t (by simpa using h1) (by simpa using h2)
    (by omega) (by simpa using h4)

theorem successOut_result_ne_empty (e : Engine) (p : String) (t : Int) :
    (successOut e p t).result ≠ "" := by
  intro h
  have hl := congrArg String.length h
  have h8 : ("TTFT_MS=" : String).length = 8 := rfl
  have h0 : ("" : String).length = 0 := rfl
  simp only [successOut, String.length_append, h8, h0] at hl
  omega

theorem natCast_ne_negOne (x : Nat) : ((x : Int)) ≠ -1 := by omega

/-! ## Concrete engine oracles used in counterexamples and witnesses -/

/-- Engine that never signals EOG, renders no text for any token, and never
fails a decode step: the loop can only stop on the position-budget guard. -/
def engNeverStop : Engine :=
  { loadModelOk := fun _ => true, ctxOk := true, tokenize := fun _ => 2,
    prefillOk := true, sample := fun _ => 0, isEog := fun _ => false,
    tokenToPiece := fun _ => "", stepDecodeOk := fun _ => true,
    ttftSampleMs := 5, prefillMs := 2, genMs := 4 }

/-- Engine whose context creation fails after a successful model load. -/
def engCtxFail : Engine :=
  { loadModelOk := fun _ => true, ctxOk := false, tokenize := fun _ => 1,
    prefillOk := true, sample := fun _ => 0, isEog := fun _ => false,
    tokenToPiece := fun _ => "", stepDecodeOk := fun _ => true,
    ttftSampleMs := 0, prefillMs := 0, genMs := 0 }

/-- Engine whose tokenization returns 0 after model and context succeed. -/
def engTokFail : Engine :=
  { loadModelOk := fun _ => true, ctxOk := true, tokenize := fun _ => 0,
    prefillOk := true, sample := fun _ => 0, isEog := fun _ => false,
    tokenToPiece := fun _ => "", stepDecodeOk := fun _ => true,
    ttftSampleMs := 0, prefillMs := 0, genMs := 0 }

/-- Engine whose second sampled token detokenizes to a fragment ending in a
newline, as in end-to-end scenario A of the specification. -/
def engNewlineRun : Engine :=
  { loadModelOk := fun _ => true, ctxOk := true, tokenize := fun _ => 2,
    prefillOk := true, sample := fun k => (k : Int), isEog := fun _ => false,
    tokenToPiece := fun t => if t = 0 then "peanut, milk, " else
      if t = 1 then "wheat\n" else "x",
    stepDecodeOk := fun _ => true,
    ttftSampleMs := 5, prefillMs := 2, genMs := 4 }

/-- Engine whose very first sampled token is an end-of-generation token:
the run reaches result assembly with genuinely empty output. -/
def engEogFirst : Engine :=
  { loadModelOk := fun _ => true, ctxOk := true, tokenize := fun _ => 3,
    prefillOk := true, sample := fun _ => 0, isEog := fun _ => true,
    tokenToPiece := fun _ => "x", stepDecodeOk := fun _ => true,
    ttftSampleMs := 5, prefillMs := 4, genMs := 0 }

/-- Engine whose first sampled token is a real (non-EOG) token with no
renderable text, followed by an EOG token: output stays empty although a
token was sampled. -/
def engEmptyPiece : Engine :=
  { loadModelOk := fun _ => true, ctxOk := true, tokenize := fun _ => 2,
    prefillOk := true, sample := fun k => (k : Int), isEog := fun t => t == 1,
    tokenToPiece := fun _ => "", stepDecodeOk := fun _ => true,
    ttftSampleMs := 5, prefillMs := 0, genMs := 0 }

/-- Engine whose forward pass fails on the third single-token batch, after
three tokens (decoding to "pea", "nut", "s") have been generated. -/
def engDecodeFail : Engine :=
  { loadModelOk := fun _ => true, ctxOk := true, tokenize := fun _ => 3,
    prefillOk := true, sample := fun k => (k : Int), isEog := fun _ => false,
    tokenToPiece := fun t => if t = 0 then "pea" else if t = 1 then "nut" else "s",
    stepDecodeOk := fun k => decide (k < 2),
    ttftSampleMs := 7, prefillMs := 2, genMs := 4 }

/-! ## Claims -/

/-- Claim C1: the spec says the generation loop never emits more than 32
generated tokens.  The code violates this: with a 2-token prompt and an
engine that never triggers any stop condition, `generated_tokens` reaches
33, because `n_pos` starts at 0 without accounting for the prompt positions,
so the guard `n_pos + batch.n_tokens < n_prompt + 32` only stops the loop
after `n_prompt + 31` decode iterations. -/
theorem c1_token_budget_violated :
    (genLoop engNeverStop 2).1.generated = 33 ∧
      32 < (genLoop engNeverStop 2).1.generated := by decide

/-- Claim C2: the spec says every exit path releases every resource acquired
up to that point.  The code violates this: when context creation fails the
loaded model is never freed, and when tokenization fails neither the context
nor the model is freed — those early returns bypass the cleanup section. -/
theorem c2_resource_leak_on_early_return :
    ((runModel engCtxFail "p" "m" 0).resources.modelAcquired = true ∧
      (runModel engCtxFail "p" "m" 0).resources.modelReleased = false) ∧
    ((runModel engTokFail "p" "m" 0).resources.ctxAcquired = true ∧
      (runModel engTokFail "p" "m" 0).resources.ctxReleased = false ∧
      (runModel engTokFail "p" "m" 0).resources.modelReleased = false) := by decide

/-- Claim C3 counterexample: tokens decoding to "peanut, milk, " and
"wheat\n" stop the loop on the newline, but the returned output is
"peanut, milk, wheat\n" — the newline is NOT stripped, contradicting the
claim that the output is "peanut, milk, wheat". -/
theorem c3_counterexample :
    (genLoop engNewlineRun 2).2 = StopReason.newline ∧
      (genLoop engNewlineRun 2).1.output = "peanut, milk, wheat\n" ∧
      (genLoop engNewlineRun 2).1.output ≠ "peanut, milk, wheat" := by decide

/-- Claim C3 (amended): when the accumulated output contains a newline, the
loop stopped with the newline reason in the very iteration that produced it:
the output is a newline-free prefix followed by the single fragment that
introduced the newline, and nothing was appended afterwards.  The
stop-triggering newline is included in the returned output, not stripped. -/
theorem c3_newline_stop_amended (e : Engine) (nPrompt : Nat)
    (h : containsNewline (genLoop e nPrompt).1.output = true) :
    (genLoop e nPrompt).2 = StopReason.newline ∧
      ∃ pre frag, (genLoop e nPrompt).1.output = pre ++ frag ∧
        containsNewline pre = false ∧ containsNewline frag = true :=
  genLoop_newline e nPrompt h

theorem c3_newline_stop_witness :
    (genLoop engNewlineRun 2).2 = StopReason.newline :=
  (c3_newline_stop_amended engNewlineRun 2 (by decide)).1

/-- Claim C4 counterexample: a run whose first sampled token is EOG produces
genuinely empty output, yet the returned string is the non-empty metrics
header "TTFT_MS=-1;ITPS=750;OTPS=-1;OET_MS=0|" — not the empty string a
fatal error returns, contradicting the claim that the two cases are
indistinguishable. -/
theorem c4_counterexample :
    (genLoop engEogFirst 3).1.output = "" ∧
      (runModel engEogFirst "p" "m" 0).result =
        "TTFT_MS=-1;ITPS=750;OTPS=-1;OET_MS=0|" ∧
      (runModel engEogFirst "p" "m" 0).result ≠ "" := by decide

/-- Claim C4 (amended): the result string is empty exactly on the four fatal
early-return paths (which also return no metrics), while a run that reaches
result assembly with genuinely empty output returns a non-empty string (the
metrics header followed by `|` and nothing).  Only the raw-output segment is
empty in both cases; the full return values are distinguishable. -/
theorem c4_empty_result_amended (e : Engine) (p mp : String) (t : Int) :
    ((runModel e p mp t).result = "" ↔ fatalPath e p mp t) ∧
    (fatalPath e p mp t → (runModel e p mp t).metrics = none) ∧
    (¬ fatalPath e p mp t → e.isEog (e.sample 0) = true →
      (genLoop e (e.tokenize (formatPrompt p t)).toNat).1.output = "" ∧
        (runModel e p mp t).result ≠ "") := by
  refine ⟨⟨?_, fun h => (runModel_fatal e p mp t h).1⟩,
    fun h => (runModel_fatal e p mp t h).2, ?_⟩
  · intro hres
    by_contra hnf
    rw [runModel_of_not_fatal e p mp t hnf] at hres
    exact successOut_result_ne_empty e p t hres
  · intro hnf heog
    refine ⟨(genLoop_eog_first e _ heog).1, ?_⟩
    rw [runModel_of_not_fatal e p mp t hnf]
    exact successOut_result_ne_empty e p t

theorem c4_empty_result_witness :
    (runModel engCtxFail "p" "m" 0).result = "" ∧
      (runModel engEogFirst "p" "m" 0).result ≠ "" :=
  ⟨(c4_empty_result_amended engCtxFail "p" "m" 0).1.mpr (by decide),
    ((c4_empty_result_amended engEogFirst "p" "m" 0).2.2 (by decide) (by decide)).2⟩

/-- Claim C5: a forward-pass failure during a decode step after at least one
generated token does not fail the request: the returned string is the metrics
header followed by `|` and the accumulated output, the reported ttft is the
measured (non-sentinel) reading, and the throughput metrics are non-sentinel
whenever the corresponding measured duration is positive. -/
theorem c5_decode_failure_keeps_output (e : Engine) (p mp : String) (t : Int)
    (h1 : e.loadModelOk mp = true) (h2 : e.ctxOk = true)
    (h3 : 0 < e.tokenize (formatPrompt p t)) (h4 : e.prefillOk = true)
    (_h5 : (genLoop e (e.tokenize (formatPrompt p t)).toNat).2 = StopReason.decodeError)
    (h6 : 1 ≤ (genLoop e (e.tokenize (formatPrompt p t)).toNat).1.generated)
    (h7 : 0 < e.genMs) :
    (runModel e p mp t).result ≠ "" ∧
    ∃ m : Metrics, (runModel e p mp t).metrics = some m ∧
      m.ttft_ms = (e.ttftSampleMs : Int) ∧ m.ttft_ms ≠ -1 ∧ m.otps ≠ -1 ∧
      (0 < e.prefillMs → m.itps ≠ -1) ∧
      (runModel e p mp t).result =
        "TTFT_MS=" ++ toString m.ttft_ms ++ ";ITPS=" ++ toString m.itps ++
        ";OTPS=" ++ toString m.otps ++ ";OET_MS=" ++ toString m.oet_ms ++
        "|" ++ (genLoop e (e.tokenize (formatPrompt p t)).toNat).1.output := by
  rw [runModel_success e p mp t h1 h2 h3 h4]
  refine ⟨successOut_result_ne_empty e p t, successMetrics e p t, rfl, ?_, ?_, ?_, ?_, rfl⟩
  · -- ttft_ms equals the measured reading
    have hinv := genLoop_stInv e (e.tokenize (formatPrompt p t)).toNat
    have hfs : (genLoop e (e.tokenize (formatPrompt p t)).toNat).1.firstSeen = true := by
      by_contra hb
      have hfalse : (genLoop e (e.tokenize (formatPrompt p t)).toNat).1.firstSeen = false := by
        simpa using hb
      have := (hinv.1 hfalse).2
      omega
    exact hinv.2 hfs
  · -- hence non-sentinel
    have hinv := genLoop_stInv e (e.tokenize (formatPrompt p t)).toNat
    have hfs : (genLoop e (e.tokenize (formatPrompt p t)).toNat).1.firstSeen = true := by
      by_contra hb
      have hfalse : (genLoop e (e.tokenize (formatPrompt p t)).toNat).1.firstSeen = false := by
        simpa using hb
      have := (hinv.1 hfalse).2
      omega
    have := hinv.2 hfs
    simp only [successMetrics]
    rw [this]
    omega
  · -- otps non-sentinel when gen_ms > 0
    simp only [successMetrics]
    rw [if_pos h7]
    exact natCast_ne_negOne _
  · -- itps non-sentinel when prefill_ms > 0
    intro hpf
    simp only [successMetrics]
    rw [if_pos hpf]
    exact natCast_ne_negOne _

theorem c5_decode_failure_witness :
    (runModel engDecodeFail "p" "m" 0).result ≠ "" ∧
      (genLoop engDecodeFail 3).2 = StopReason.decodeError :=
  ⟨(c5_decode_failure_keeps_output engDecodeFail "p" "m" 0 rfl rfl (by decide) rfl
      (by decide) (by decide) (by decide)).1, by decide⟩

/-- Claim C6: for each template kind 0-3 the formatted prompt is exactly the
fixed literal prefix, the raw prompt verbatim, and the fixed literal suffix,
matching the ChatML, Gemma, Llama 3 and Phi layouts. -/
theorem c6_templates_verbatim (p : String) :
    formatPrompt p 0 = "<|im_start|>user\n" ++ p ++ "<|im_end|>\n<|im_start|>assistant\n" ∧
    formatPrompt p 1 = "<start_of_turn>user\n" ++ p ++ "<end_of_turn>\n<start_of_turn>model\n" ∧
    formatPrompt p 2 = "<|begin_of_text|><|start_header_id|>user<|end_header_id|>\n\n" ++ p ++
      "<|eot_id|><|start_header_id|>assistant<|end_header_id|>\n\n" ∧
    formatPrompt p 3 = "<|user|>\n" ++ p ++ "<|end|>\n<|assistant|>\n" :=
  ⟨rfl, rfl, rfl, rfl⟩

/-- Claim C7: any template kind outside 0-3 formats exactly as kind 0
(ChatML): both select the default branch of the switch. -/
theorem c7_unknown_kind_falls_back_to_chatml (p : String) (k : Int)
    (_h0 : k ≠ 0) (h1 : k ≠ 1) (h2 : k ≠ 2) (h3 : k ≠ 3) :
    formatPrompt p k = formatPrompt p 0 := by
  unfold formatPrompt
  rw [if_neg h1, if_neg h2, if_neg h3]
  rfl

theorem c7_unknown_kind_witness : formatPrompt "abc" 99 = formatPrompt "abc" 0 :=
  c7_unknown_kind_falls_back_to_chatml "abc" 99 (by decide) (by decide) (by decide) (by decide)

/-- Claim C8 counterexample: a run whose first sampled token is a real token
with no renderable text (piece length 0) followed by EOG reaches result
assembly with empty accumulated output, yet the reported ttft is the
measured reading 5, not the sentinel -1 — refuting "empty output implies
ttft = -1". -/
theorem c8_counterexample :
    (genLoop engEmptyPiece 2).1.output = "" ∧
      (runModel engEmptyPiece "p" "m" 0).metrics =
        some { ttft_ms := 5, itps := -1, otps := -1, oet_ms := 0 } ∧
      (genLoop engEmptyPiece 2).1.ttft ≠ -1 := by decide

/-- Claim C8 (amended): ttft keeps the sentinel -1 exactly as long as no
token has been sampled past the EOG check (`first_token_seen` unset); once a
first token is sampled it is set, once, to the measured reading.  If the
generated-token count is positive the flag is set.  Empty accumulated output
does not force the sentinel, because a sampled token may contribute an empty
fragment. -/
theorem c8_ttft_sentinel_amended (e : Engine) (nPrompt : Nat) :
    ((genLoop e nPrompt).1.firstSeen = false → (genLoop e nPrompt).1.ttft = -1) ∧
    ((genLoop e nPrompt).1.firstSeen = true →
      (genLoop e nPrompt).1.ttft = (e.ttftSampleMs : Int)) ∧
    (1 ≤ (genLoop e nPrompt).1.generated → (genLoop e nPrompt).1.firstSeen = true) := by
  have hinv := genLoop_stInv e nPrompt
  refine ⟨fun hf => (hinv.1 hf).1, hinv.2, fun hg => ?_⟩
  by_contra hb
  have hfalse : (genLoop e nPrompt).1.firstSeen = false := by simpa using hb
  have := (hinv.1 hfalse).2
  omega

theorem c8_ttft_sentinel_witness :
    (genLoop engEmptyPiece 2).1.ttft = ((5 : Nat) : Int) :=
  (c8_ttft_sentinel_amended engEmptyPiece 2).2.1 (by decide)

/-- Claim C9: whenever a run reaches result assembly, the reported itps is
the sentinel -1 if the measured prefill duration is 0 ms (no division is
attempted), and equals `n_prompt * 1000 / prefill_ms` in integer arithmetic
if the duration is positive. -/
theorem c9_itps_division_guard (e : Engine) (p mp : String) (t : Int) (m : Metrics)
    (hm : (runModel e p mp t).metrics = some m) :
    (e.prefillMs = 0 → m.itps = -1) ∧
    (0 < e.prefillMs →
      m.itps = (((e.tokenize (formatPrompt p t)).toNat * 1000 / e.prefillMs : Nat) : Int)) := by
  by_cases hf : fatalPath e p mp t
  · rw [(runModel_fatal e p mp t hf).2] at hm
    cases hm
  · rw [runModel_of_not_fatal e p mp t hf] at hm
    have hm' : successMetrics e p t = m := Option.some.inj hm
    subst hm'
    constructor
    · intro h0
      simp only [successMetrics]
      rw [if_neg (by omega)]
    · intro hpos
      simp only [successMetrics]
      rw [if_pos hpos]

theorem c9_itps_witness :
    ({ ttft_ms := -1, itps := 750, otps := -1, oet_ms := 0 } : Metrics).itps =
      ((750 : Nat) : Int) :=
  (c9_itps_division_guard engEogFirst "p" "m" 0
      { ttft_ms := -1, itps := 750, otps := -1, oet_ms := 0 } (by decide)).2 (by decide)

/-- Claim C10: the generation loop always terminates, with at most
`n_prompt + 31` iterations of the loop body: every iteration either breaks
or advances `n_pos` by exactly one, and the guard
`n_pos + batch.n_tokens < n_prompt + 32` (with `n_pos` counting only decode
steps and the batch holding one token after the first iteration) cuts the
loop off; the fuel supplied in the embedding is never exhausted. -/
theorem c10_loop_terminates (e : Engine) (nPrompt : Nat) :
    (genLoop e nPrompt).2 ≠ StopReason.fuelOut ∧
      (genLoop e nPrompt).1.iters ≤ nPrompt + 31 := by
  rw [genLoop_eq]
  cases hgs : genStep e 0 (initState nPrompt) with
  | stop s' r =>
    obtain ⟨hi, hrf, -⟩ := genStep_stop_facts hgs
    refine ⟨hrf, ?_⟩
    show s'.iters ≤ nPrompt + 31
    have h0 : (initState nPrompt).iters = 0 := rfl
    omega
  | next s' =>
    obtain ⟨hnp, hbt, hit⟩ := genStep_next_fields hgs
    have hn0 : (initState nPrompt).n_pos = 0 := rfl
    have hi0 : (initState nPrompt).iters = 0 := rfl
    have hrec := genLoopAux_bound e nPrompt (nPrompt + 31) 1 s' hbt (by omega) (by omega)
    refine ⟨hrec.1, ?_⟩
    show (genLoopAux e nPrompt (nPrompt + 31) 1 s').1.iters ≤ nPrompt + 31
    omega

theorem c10_loop_terminates_witness :
    (genLoop engNeverStop 2).2 ≠ StopReason.fuelOut ∧
      (genLoop engNeverStop 2).1.iters ≤ 33 :=
  c10_loop_terminates engNeverStop 2

end NativeLib
